import Mathlib

/- Shallow embedding of the LS-8 emulator core of this repository.  The class
`CPU` of `src/project/ls8/cpu.js` is the authoritative source; the unnamed
draft of the same class contributes its own `tick`.  JavaScript numbers that
arise in this program are exact rationals together with the IEEE special
values; runtime errors of the JavaScript engine and the fatal faults of the
spec-modelled collaborators (memory, stack helpers) abort an operation. -/

namespace LS8

/-- A JavaScript runtime value as it occurs in this program: a finite number
(every finite JS number reached here is an exact rational), the two IEEE
infinities, NaN, `undefined`, or a string. -/
inductive JSVal where
  | num : ℚ → JSVal
  | inf : JSVal
  | negInf : JSVal
  | nan : JSVal
  | undefined : JSVal
  | str : String → JSVal
deriving DecidableEq

/-- JS `ToNumber` as exercised by this program's arithmetic: `undefined`
coerces to NaN.  String operands never reach an arithmetic operator in this
program (the one string the code produces is a discarded return value); a
non-numeric string coerces to NaN. -/
def JSVal.toNumber : JSVal → JSVal
  | .str _ => .nan
  | .undefined => .nan
  | v => v

/-- Truncation of a rational toward zero, as JS number-to-integer steps do. -/
def ratTrunc (q : ℚ) : ℤ :=
  if 0 ≤ q then ⌊q⌋ else ⌈q⌉

/-- JS `ToInt32`, used by the bitwise operators: NaN, `undefined` and the
infinities give 0; a finite number is truncated toward zero and reduced into
the signed 32-bit range. -/
def JSVal.toInt32 : JSVal → ℤ
  | .num q =>
      let m := ratTrunc q % 4294967296
      if m < 2147483648 then m else m - 4294967296
  | _ => 0

/-- JS `+` on the numeric values this program feeds it (IEEE addition). -/
def jsAdd (x y : JSVal) : JSVal :=
  match x.toNumber, y.toNumber with
  | .num a, .num b => .num (a + b)
  | .num _, .inf => .inf
  | .num _, .negInf => .negInf
  | .inf, .num _ => .inf
  | .negInf, .num _ => .negInf
  | .inf, .inf => .inf
  | .negInf, .negInf => .negInf
  | _, _ => .nan

/-- JS `-` (IEEE subtraction). -/
def jsSub (x y : JSVal) : JSVal :=
  match x.toNumber, y.toNumber with
  | .num a, .num b => .num (a - b)
  | .num _, .inf => .negInf
  | .num _, .negInf => .inf
  | .inf, .num _ => .inf
  | .negInf, .num _ => .negInf
  | .inf, .negInf => .inf
  | .negInf, .inf => .negInf
  | _, _ => .nan

/-- JS `*` (IEEE multiplication; the sign of zero is not modelled, the program
never observes it). -/
def jsMul (x y : JSVal) : JSVal :=
  match x.toNumber, y.toNumber with
  | .num a, .num b => .num (a * b)
  | .num a, .inf => if 0 < a then .inf else if a < 0 then .negInf else .nan
  | .num a, .negInf => if 0 < a then .negInf else if a < 0 then .inf else .nan
  | .inf, .num b => if 0 < b then .inf else if b < 0 then .negInf else .nan
  | .negInf, .num b => if 0 < b then .negInf else if b < 0 then .inf else .nan
  | .inf, .inf => .inf
  | .inf, .negInf => .negInf
  | .negInf, .inf => .negInf
  | .negInf, .negInf => .inf
  | _, _ => .nan

/-- JS `/` (IEEE division): a finite positive number divided by zero is
`Infinity`, a negative one `-Infinity`, and `0 / 0` is NaN. -/
def jsDiv (x y : JSVal) : JSVal :=
  match x.toNumber, y.toNumber with
  | .num a, .num b =>
      if b = 0 then (if 0 < a then .inf else if a < 0 then .negInf else .nan)
      else .num (a / b)
  | .num _, .inf => .num 0
  | .num _, .negInf => .num 0
  | .inf, .num b => if b < 0 then .negInf else .inf
  | .negInf, .num b => if b < 0 then .inf else .negInf
  | _, _ => .nan

/-- JS `parseInt` applied to a register value, as in `PRN`: the argument is
converted to its decimal string and the leading integer part parsed, so a
finite value truncates toward zero while NaN, the infinities, `undefined` and
non-numeric strings give NaN. -/
def jsParseInt : JSVal → JSVal
  | .num q => .num ((ratTrunc q : ℤ) : ℚ)
  | _ => .nan

/-- One console event: `console.log` of a numeric value (`PRN`) or of the
character for a char code (`PRA`, recorded by the value printed). -/
inductive OutEvent where
  | logNum : JSVal → OutEvent
  | logChar : JSVal → OutEvent
deriving DecidableEq

/-- A fault that aborts execution: the JavaScript runtime errors the source
raises (`ReferenceError: handler is not defined` in `CPU.tick` of `cpu.js`,
`TypeError: this.branchTable is not a function` in the draft's `tick`), and
the fatal `AddressOutOfRange` / `StackFault` conditions of the spec-modelled
memory and stack collaborators. -/
inductive Fault where
  | referenceError : Fault
  | typeError : Fault
  | addressOutOfRange : JSVal → Fault
  | stackFault : Fault
deriving DecidableEq

/-- The mutable state of one `CPU` instance: the RAM collaborator's 256 cells,
the general register array `this.reg` (a JS array holding values at integer
keys; keys outside the initialized 0–7 read back `undefined` until written),
the special slots `PC`, `IR`, `FL`, the Stack Pointer slot (modelled from the
spec, see `push`), whether the clock is running, and the console output so
far. -/
structure CPUState where
  ram : Fin 256 → JSVal
  reg : ℤ → JSVal
  PC : ℤ
  IR : JSVal
  FL : JSVal
  SP : JSVal
  running : Bool
  output : List OutEvent

/-- Reading `this.reg[i]` for a runtime value `i`: a JS array access yields
the stored element at an integer index and `undefined` otherwise (the program
only ever indexes the register array with integers). -/
def regRead (s : CPUState) (i : JSVal) : JSVal :=
  match i with
  | .num q => if q.den = 1 then s.reg q.num else .undefined
  | _ => .undefined

/-- Writing `this.reg[i] = v`: stores at an integer index; the program never
writes a non-integer register key, so other keys leave the array unchanged. -/
def regWrite (s : CPUState) (i : JSVal) (v : JSVal) : CPUState :=
  match i with
  | .num q =>
      if q.den = 1 then
        { s with reg := fun j => if j = q.num then v else s.reg j }
      else s
  | _ => s

/-- Modelled from the spec: `ram.read` of the Memory collaborator (the `ram`
object handed to the CPU constructor is not among the sources).  Spec §4.1:
`read(address) -> byte`, failing with `AddressOutOfRange` if the address is
outside [0, 256); a cell holds the value last written, cells start at 0. -/
def ramRead (ram : Fin 256 → JSVal) (addr : JSVal) : Except Fault JSVal :=
  match addr with
  | .num q =>
      if h : q.den = 1 ∧ 0 ≤ q.num ∧ q.num < 256 then
        .ok (ram ⟨q.num.toNat, by omega⟩)
      else .error (.addressOutOfRange addr)
  | _ => .error (.addressOutOfRange addr)

/-- Point update of the memory array at an integer address. -/
def ramStore (ram : Fin 256 → JSVal) (k : ℤ) (v : JSVal) : Fin 256 → JSVal :=
  fun j => if (j : ℤ) = k then v else ram j

/-- Modelled from the spec: `ram.write` of the Memory collaborator, with the
same `AddressOutOfRange` bounds check as `ramRead`. -/
def ramWrite (ram : Fin 256 → JSVal) (addr v : JSVal) :
    Except Fault (Fin 256 → JSVal) :=
  match addr with
  | .num q =>
      if q.den = 1 ∧ 0 ≤ q.num ∧ q.num < 256 then
        .ok (ramStore ram q.num v)
      else .error (.addressOutOfRange addr)
  | _ => .error (.addressOutOfRange addr)

/-- The CPU as constructed: eight general registers filled with 0, `PC` and
`IR` 0; `this.reg.FL` is never initialized by the constructor (`undefined`).
The Stack Pointer slot is modelled from the spec (§3: a distinct special
register, conventionally starting at 0xF4 = 244), since the code that would
use it (`_push`/`_pop`) is absent from the sources.  RAM contents come from
the external loader. -/
def initState (ram : Fin 256 → JSVal) : CPUState :=
  { ram := ram
    reg := fun i => if 0 ≤ i ∧ i < 8 then .num 0 else .undefined
    PC := 0
    IR := .num 0
    FL := .undefined
    SP := .num 244
    running := true
    output := [] }

/-- Source constant `IM = 0b00000101` (declared, never used in the sources). -/
def IM : ℕ := 0b00000101

/-- Source constant `IS = 0b00000110` (declared, never used in the sources). -/
def IS : ℕ := 0b00000110

/-- Source constant `SP = 0b00000111` (declared, never used in the sources —
the only code that would use it, `_push`/`_pop`, is absent). -/
def SP : ℕ := 0b00000111

/-- Flag constant `FL_EQ`. -/
def FL_EQ : ℤ := 0b00000001

/-- Flag constant `FL_GT`. -/
def FL_GT : ℤ := 0b00000010

/-- Flag constant `FL_LT`. -/
def FL_LT : ℤ := 0b00000100

/-- `CPU.setFlag` from `src/project/ls8/cpu.js`: sets or clears one bit of
`this.reg.FL` with JS bitwise `|` / `& ~`, which `ToInt32` their operands (so
an uninitialized `FL` counts as 0).  No reachable code of the sources calls
it: the one prospective caller, the alu's CMP case, does not exist. -/
def setFlag (s : CPUState) (flag : ℤ) (value : Bool) : CPUState :=
  if value then
    { s with FL := .num ((Int.lor s.FL.toInt32 flag : ℤ) : ℚ) }
  else
    { s with FL := .num ((Int.land s.FL.toInt32 (-flag - 1) : ℤ) : ℚ) }

/-- The op names `CPU.alu` is invoked with.  The source passes them as string
literals; this enumeration ranges over exactly those strings ('ADD', 'SUB',
'MUL', 'DIV', 'INC', 'DEC', 'CMP', 'MOD', 'AND', 'OR', 'XOR', 'NOT'). -/
inductive AluOp where
  | ADD | SUB | MUL | DIV | INC | DEC | CMP | MOD | AND | OR | XOR | NOT
deriving DecidableEq

/-- `CPU.alu` from `src/project/ls8/cpu.js`.  The `switch` has cases for ADD,
SUB, MUL, DIV, INC and DEC only; every other op — including CMP and MOD, which
handlers pass and the function's own doc comment names — falls through with no
effect and returns `undefined`.  The DIV case compares the *parameter* `regB`
(the operand byte, i.e. the register index) against 0, not the divisor
register's value; on that test it returns an error string, without halting,
and otherwise performs JS division on the register values. -/
def alu (s : CPUState) (op : AluOp) (regA regB : JSVal) : CPUState × JSVal :=
  match op with
  | .ADD =>
      let v := jsAdd (regRead s regA) (regRead s regB)
      (regWrite s regA v, v)
  | .SUB =>
      let v := jsSub (regRead s regA) (regRead s regB)
      (regWrite s regA v, v)
  | .MUL =>
      let v := jsMul (regRead s regA) (regRead s regB)
      (regWrite s regA v, v)
  | .DIV =>
      if regB = JSVal.num 0 then
        (s, JSVal.str (r"Error: Can not divide by 0"))
      else
        let v := jsDiv (regRead s regA) (regRead s regB)
        (regWrite s regA v, v)
  | .INC =>
      let v := jsAdd (regRead s regA) (JSVal.num 1)
      (regWrite s regA v, v)
  | .DEC =>
      let v := jsSub (regRead s regA) (JSVal.num 1)
      (regWrite s regA v, v)
  | _ => (s, JSVal.undefined)

/-- Modelled from the spec: `this._push`, called by `CALL` and `PUSH` but
defined nowhere in the sources.  Spec §4.6: decrement the Stack Pointer by 1
and write the value at that address; the Stack Pointer leaving [0,255] is a
fatal `StackFault`.  Spec §3: the Stack Pointer is a special register of its
own, distinct from the eight general registers. -/
def push (s : CPUState) (v : JSVal) : Except Fault CPUState :=
  match s.SP with
  | .num q =>
      if q.den = 1 ∧ 1 ≤ q.num ∧ q.num ≤ 256 then
        .ok { s with
              SP := .num ((q.num - 1 : ℤ) : ℚ)
              ram := ramStore s.ram (q.num - 1) v }
      else .error .stackFault
  | _ => .error .stackFault

/-- Modelled from the spec: `this._pop`, called by `POP` and `RET` but defined
nowhere in the sources.  Spec §4.6: read the value at the Stack Pointer,
increment the Stack Pointer by 1, return the value; an out-of-range Stack
Pointer is a fatal `StackFault`. -/
def pop (s : CPUState) : Except Fault (CPUState × JSVal) :=
  match s.SP with
  | .num q =>
      if h : q.den = 1 ∧ 0 ≤ q.num ∧ q.num < 256 then
        .ok ({ s with SP := .num ((q.num + 1 : ℤ) : ℚ) },
             s.ram ⟨q.num.toNat, by omega⟩)
      else .error .stackFault
  | _ => .error .stackFault

namespace CPU

/-- `CPU.HLT`: calls `this.stopClock()`, which clears the interval timer and
nothing else. -/
def HLT (s : CPUState) : CPUState :=
  { s with running := false }

/-- `CPU.LDI`: `this.reg[regNum] = value`. -/
def LDI (s : CPUState) (regNum value : JSVal) : CPUState :=
  regWrite s regNum value

/-- `CPU.ADD`: calls the alu with 'ADD', discarding its return value. -/
def ADD (s : CPUState) (regA regB : JSVal) : CPUState :=
  (alu s .ADD regA regB).1

/-- `CPU.SUB`: calls the alu with 'SUB'. -/
def SUB (s : CPUState) (regA regB : JSVal) : CPUState :=
  (alu s .SUB regA regB).1

/-- `CPU.MUL`: calls the alu with 'MUL'. -/
def MUL (s : CPUState) (regA regB : JSVal) : CPUState :=
  (alu s .MUL regA regB).1

/-- `CPU.DIV`: calls the alu with 'DIV', discarding its return value (so even
the alu's error string for its mis-keyed zero test goes nowhere). -/
def DIV (s : CPUState) (regA regB : JSVal) : CPUState :=
  (alu s .DIV regA regB).1

/-- `CPU.MOD`: calls the alu with 'MOD', an op the alu's switch does not
have, so the machine state is untouched. -/
def MOD (s : CPUState) (regA regB : JSVal) : CPUState :=
  (alu s .MOD regA regB).1

/-- `CPU.INC`: calls the alu with 'INC'. -/
def INC (s : CPUState) (regA regB : JSVal) : CPUState :=
  (alu s .INC regA regB).1

/-- `CPU.DEC`: calls the alu with 'DEC'. -/
def DEC (s : CPUState) (regA regB : JSVal) : CPUState :=
  (alu s .DEC regA regB).1

/-- `CPU.CMP`: calls the alu with 'CMP', an op the alu's switch does not
have, so neither the flags nor any register changes. -/
def CMP (s : CPUState) (regA regB : JSVal) : CPUState :=
  (alu s .CMP regA regB).1

/-- `CPU.AND`: calls the alu with 'AND', an op the alu's switch does not have. -/
def AND (s : CPUState) (regA regB : JSVal) : CPUState :=
  (alu s .AND regA regB).1

/-- `CPU.OR`: calls the alu with 'OR', an op the alu's switch does not have. -/
def OR (s : CPUState) (regA regB : JSVal) : CPUState :=
  (alu s .OR regA regB).1

/-- `CPU.XOR`: calls the alu with 'XOR', an op the alu's switch does not have. -/
def XOR (s : CPUState) (regA regB : JSVal) : CPUState :=
  (alu s .XOR regA regB).1

/-- `CPU.NOT`: calls the alu with 'NOT' and a single argument (so the alu's
`regB` parameter is `undefined`); the switch has no NOT case. -/
def NOT (s : CPUState) (regA : JSVal) : CPUState :=
  (alu s .NOT regA .undefined).1

/-- `CPU.CALL`: `this._push(this.reg.PC + 2)` and then *return* the value in
the operand register; the method never assigns `this.reg.PC`. -/
def CALL (s : CPUState) (regA : JSVal) : Except Fault (CPUState × JSVal) :=
  match push s (.num ((s.PC + 2 : ℤ) : ℚ)) with
  | .error e => .error e
  | .ok s1 => .ok (s1, regRead s1 regA)

/-- `CPU.RET`: `return this._pop()`; the method never assigns `this.reg.PC`. -/
def RET (s : CPUState) : Except Fault (CPUState × JSVal) :=
  pop s

/-- `CPU.PUSH`: `this._push(this.reg[regA])`. -/
def PUSH (s : CPUState) (regA : JSVal) : Except Fault CPUState :=
  push s (regRead s regA)

/-- `CPU.POP`: `this.reg[regA] = this._pop()`. -/
def POP (s : CPUState) (regA : JSVal) : Except Fault CPUState :=
  match pop s with
  | .error e => .error e
  | .ok (s1, v) => .ok (regWrite s1 regA v)

/-- `CPU.JMP`: returns the value in the operand register; `this.reg.PC` is
not assigned. -/
def JMP (s : CPUState) (regA : JSVal) : CPUState × JSVal :=
  (s, regRead s regA)

/-- `CPU.JEQ`: returns the target register value when `(FL & FL_EQ) === 1`,
otherwise returns `undefined`; no state changes. -/
def JEQ (s : CPUState) (regA : JSVal) : CPUState × JSVal :=
  if Int.land s.FL.toInt32 FL_EQ = 1 then (s, regRead s regA) else (s, .undefined)

/-- `CPU.JGT`: returns the target register value when `(FL & FL_GT) === 2`. -/
def JGT (s : CPUState) (regA : JSVal) : CPUState × JSVal :=
  if Int.land s.FL.toInt32 FL_GT = 2 then (s, regRead s regA) else (s, .undefined)

/-- `CPU.JLT`: returns the target register value when `(FL & FL_LT) === 4`. -/
def JLT (s : CPUState) (regA : JSVal) : CPUState × JSVal :=
  if Int.land s.FL.toInt32 FL_LT = 4 then (s, regRead s regA) else (s, .undefined)

/-- `CPU.JNE`: returns the target register value when `(FL & FL_EQ) === 0`. -/
def JNE (s : CPUState) (regA : JSVal) : CPUState × JSVal :=
  if Int.land s.FL.toInt32 FL_EQ = 0 then (s, regRead s regA) else (s, .undefined)

/-- `CPU.LD`: `this.reg[regA] = this.ram.read(this.reg[regB])`. -/
def LD (s : CPUState) (regA regB : JSVal) : Except Fault CPUState :=
  match ramRead s.ram (regRead s regB) with
  | .error e => .error e
  | .ok v => .ok (regWrite s regA v)

/-- `CPU.ST`: `this.ram.write(this.reg[regA], this.reg[regB])`. -/
def ST (s : CPUState) (regA regB : JSVal) : Except Fault CPUState :=
  match ramWrite s.ram (regRead s regA) (regRead s regB) with
  | .error e => .error e
  | .ok r => .ok { s with ram := r }

/-- `CPU.PRN`: `console.log(parseInt(this.reg[regA]))`. -/
def PRN (s : CPUState) (regA : JSVal) : CPUState :=
  { s with output := s.output ++ [.logNum (jsParseInt (regRead s regA))] }

/-- `CPU.PRA`: `console.log(String.fromCharCode(this.reg[regA]))`; the event
records the char-code value printed. -/
def PRA (s : CPUState) (regA : JSVal) : CPUState :=
  { s with output := s.output ++ [.logChar (regRead s regA)] }

/-- The opcode keys installed by `CPU.setupBranchTable` of
`src/project/ls8/cpu.js`.  Four of them (AND, INT, IRET, NOP) are assigned
`this.AND` etc., methods the class never defines, so their entries hold
`undefined`. -/
def branchTableKeys : List ℕ :=
  [0b10101000, 0b10110011, 0b01001000, 0b10100000,
   0b01111001, 0b10101011, 0b00000001, 0b01111000, 0b01001010, 0b00001011,
   0b01010001, 0b01010100, 0b01010011, 0b01010000, 0b01010010,
   0b10011000, 0b10011001, 0b10101100, 0b10101010, 0b00000000, 0b01110000,
   0b10110001, 0b01001100, 0b01000010, 0b01000011, 0b01001101,
   0b00001001, 0b10011010, 0b10101001, 0b10110010]

/-- `CPU.tick` from `src/project/ls8/cpu.js`, as written: it loads `IR` from
`ram[PC]` and reads the two operand bytes, but the branch-table lookup is left
as `!!! IMPLEMENT ME` and no variable `handler` is ever declared, so the
statement `handler.call(this, operandA, operandB)` throws a `ReferenceError`
before any handler runs; the PC-advance line below it is unreachable, and the
assignment to `IR` survives the exception. -/
def tick (s : CPUState) : CPUState × Except Fault JSVal :=
  match ramRead s.ram (.num ((s.PC : ℤ) : ℚ)) with
  | .error e => (s, .error e)
  | .ok ir =>
      let s1 := { s with IR := ir }
      match ramRead s1.ram (.num ((s.PC + 1 : ℤ) : ℚ)) with
      | .error e => (s1, .error e)
      | .ok _ =>
          match ramRead s1.ram (.num ((s.PC + 2 : ℤ) : ℚ)) with
          | .error e => (s1, .error e)
          | .ok _ => (s1, .error .referenceError)

/-- `CPU.tick` from the unnamed draft: after loading `IR` it evaluates
`this.branchTable(this.reg.IR)` — a function call on a plain object — which
throws a `TypeError`, so the unknown-opcode check below that line can never
run. -/
def tickDraft (s : CPUState) : CPUState × Except Fault JSVal :=
  match ramRead s.ram (.num ((s.PC : ℤ) : ℚ)) with
  | .error e => (s, .error e)
  | .ok ir => ({ s with IR := ir }, .error .typeError)

end CPU

/-- Decidable equality for `Except` results, so concrete runs can be checked
by evaluation. -/
instance exceptDecEq {ε α : Type} [DecidableEq ε] [DecidableEq α] :
    DecidableEq (Except ε α) := fun x y =>
  match x, y with
  | .error e, .error f =>
      if h : e = f then .isTrue (congrArg Except.error h)
      else .isFalse (fun hh => h (Except.error.inj hh))
  | .ok a, .ok b =>
      if h : a = b then .isTrue (congrArg Except.ok h)
      else .isFalse (fun hh => h (Except.ok.inj hh))
  | .error _, .ok _ => .isFalse Except.noConfusion
  | .ok _, .error _ => .isFalse Except.noConfusion

/-- A memory image whose cells are all 0, as the loader leaves untouched
cells. -/
def zeroRam : Fin 256 → JSVal := fun _ => JSVal.num 0

/-- A CPU with R0 = 5 and every other general register 0 (so R1, the divisor
register of the runs below, holds the value 0). -/
def divZeroState : CPUState :=
  CPU.LDI (initState zeroRam) (.num 0) (.num 5)

/-- A CPU with R0 = 255 and R1 = 1, the spec's own wrap example. -/
def addWrapState : CPUState :=
  CPU.LDI (CPU.LDI (initState zeroRam) (.num 0) (.num 255)) (.num 1) (.num 1)

/-- A CPU with R0 = 0 and R1 = 1, about to run `SUB R0,R1`. -/
def subWrapState : CPUState :=
  CPU.LDI (initState zeroRam) (.num 1) (.num 1)

/-- A memory image whose byte at address 0 is 0xFF, an opcode with no entry
in the branch table. -/
def unknownRam : Fin 256 → JSVal :=
  fun i => if i = 0 then .num 255 else .num 0

/-- A memory image holding the program `JMP R0` (opcode 0b01010000 = 80 at
address 0, operand 0 at address 1). -/
def jmpRam : Fin 256 → JSVal :=
  fun i => if i = 0 then .num 80 else .num 0

/-- A CPU loaded with `JMP R0` and R0 = 10, the jump target. -/
def jmpState : CPUState :=
  CPU.LDI (initState jmpRam) (.num 0) (.num 10)

/-- A memory image holding the program `LDI R0,42` (opcode 0b10011001 = 153,
operands 0 and 42), a plain two-operand instruction. -/
def ldiRam : Fin 256 → JSVal :=
  fun i => if i = 0 then .num 153 else if i = 2 then .num 42 else .num 0

/-- A CPU at PC = 0 with R0 = 10 (the subroutine address) and the Stack
Pointer at its conventional 0xF4, about to run `CALL R0`. -/
def callState : CPUState :=
  CPU.LDI (initState zeroRam) (.num 0) (.num 10)

/-- The outcome of running the `CALL` handler on `callState`. -/
def afterCALL : Option (CPUState × JSVal) :=
  (CPU.CALL callState (.num 0)).toOption

/-- The outcome of running the `RET` handler on the state `CALL` left. -/
def afterRET : Option (CPUState × JSVal) :=
  afterCALL.bind fun p => (CPU.RET p.1).toOption

/-- A CPU with R0 = 5 and R1 = 5 and the flags register still untouched
(`undefined`), about to run `CMP R0,R1`. -/
def cmpEqState : CPUState :=
  CPU.LDI (CPU.LDI (initState zeroRam) (.num 0) (.num 5)) (.num 1) (.num 5)

/-- The same CPU but with all three flag bits left over set (FL = 7), as an
earlier comparison could leave them. -/
def cmpStaleState : CPUState :=
  { cmpEqState with FL := .num 7 }

/-- A CPU equal to `initState zeroRam` on RAM and every register but with a
nonempty console history, for the determinism check. -/
def outputVariantState : CPUState :=
  { initState zeroRam with output := [OutEvent.logNum (JSVal.num 1)] }

theorem jsAdd_num (a b : ℚ) : jsAdd (.num a) (.num b) = .num (a + b) := rfl

theorem jsSub_num (a b : ℚ) : jsSub (.num a) (.num b) = .num (a - b) := rfl

theorem regRead_den1 (s : CPUState) (q : ℚ) (h : q.den = 1) :
    regRead s (.num q) = s.reg q.num := by
  simp [regRead, h]

theorem regWrite_den1 (s : CPUState) (q : ℚ) (v : JSVal) (h : q.den = 1) :
    regWrite s (.num q) v =
      { s with reg := fun j => if j = q.num then v else s.reg j } := by
  simp [regWrite, h]

theorem regRead_int (s : CPUState) (n : ℤ) :
    regRead s (.num ((n : ℤ) : ℚ)) = s.reg n := by
  simp [regRead]

theorem regWrite_int (s : CPUState) (n : ℤ) (v : JSVal) :
    regWrite s (.num ((n : ℤ) : ℚ)) v =
      { s with reg := fun j => if j = n then v else s.reg j } := by
  simp [regWrite]

theorem push_int (s : CPUState) (n : ℤ) (v : JSVal)
    (hsp : s.SP = .num ((n : ℤ) : ℚ)) (h1 : 1 ≤ n) (h2 : n ≤ 256) :
    push s v = .ok { s with
      SP := .num ((n - 1 : ℤ) : ℚ)
      ram := ramStore s.ram (n - 1) v } := by
  rw [push, hsp]
  simp [h1, h2]

theorem pop_int (s : CPUState) (n : ℤ)
    (hsp : s.SP = .num ((n : ℤ) : ℚ)) (h1 : 0 ≤ n) (h2 : n < 256) :
    pop s = .ok ({ s with SP := .num ((n + 1 : ℤ) : ℚ) },
      s.ram ⟨n.toNat, by omega⟩) := by
  rw [pop, hsp]
  simp [h1, h2]

theorem ramStore_read (ram : Fin 256 → JSVal) (k : ℤ) (v : JSVal)
    (h0 : 0 ≤ k) (h1 : k < 256) :
    ramStore ram k v ⟨k.toNat, by omega⟩ = v := by
  have hx : ((k.toNat : ℕ) : ℤ) = k := Int.toNat_of_nonneg h0
  show (if ((k.toNat : ℕ) : ℤ) = k then v else _) = v
  exact if_pos hx

/-- C1: the claim says `DIV`/`MOD` with a zero divisor register halts with a
`DivisionByZero` fault and leaves the dividend register unchanged, the fault
not being a normal return value.  On the code, with R0 = 5 and the divisor
register R1 holding 0, `DIV R0,R1` performs JS division by zero: the CPU
keeps running and R0 is overwritten with `Infinity`; the alu's zero test
actually fires on the *register index* (operand byte 0), where it returns an
error string as an ordinary value, still without halting; and `MOD` matches
no alu case at all, leaving the whole state untouched. -/
theorem c1_div_mod_zero_divisor_not_halted :
    divZeroState.reg 0 = .num 5 ∧
    divZeroState.reg 1 = .num 0 ∧
    (CPU.DIV divZeroState (.num 0) (.num 1)).reg 0 = .inf ∧
    (CPU.DIV divZeroState (.num 0) (.num 1)).running = true ∧
    (alu divZeroState .DIV (.num 0) (.num 0)).2 =
      .str (r"Error: Can not divide by 0") ∧
    (alu divZeroState .DIV (.num 0) (.num 0)).1.running = true ∧
    CPU.MOD divZeroState (.num 0) (.num 1) = divZeroState := by
  refine ⟨by decide, by decide, by decide, by decide, by decide, by decide, rfl⟩

/-- C2: the claim says ADD/SUB/MUL store their result wrapped modulo 256, so
that with R0 = 255 and R1 = 1, `ADD R0,R1` yields R0 = 0 and the stored value
is always an unsigned 8-bit integer.  On the code, the alu stores the raw JS
sum: R0 becomes 256, not 0, and `SUB R0,R1` from R0 = 0 stores -1, which is
not an unsigned 8-bit value. -/
theorem c2_add_sub_do_not_wrap :
    addWrapState.reg 0 = .num 255 ∧
    addWrapState.reg 1 = .num 1 ∧
    (CPU.ADD addWrapState (.num 0) (.num 1)).reg 0 = .num 256 ∧
    (CPU.ADD addWrapState (.num 0) (.num 1)).reg 0 ≠ .num 0 ∧
    (CPU.SUB subWrapState (.num 0) (.num 1)).reg 0 = .num (-1) := by
  refine ⟨by decide, by decide, ?_, ?_, ?_⟩
  · simp [CPU.ADD, alu, addWrapState, CPU.LDI, initState, zeroRam,
      regRead_den1, regWrite_den1, jsAdd_num]
    norm_num
  · simp [CPU.ADD, alu, addWrapState, CPU.LDI, initState, zeroRam,
      regRead_den1, regWrite_den1, jsAdd_num]
    norm_num
  · simp [CPU.SUB, alu, subWrapState, CPU.LDI, initState, zeroRam,
      regRead_den1, regWrite_den1, jsSub_num]

/-- C3: the claim says an opcode byte with no registered handler makes the
engine report `UnknownOpcode` with the offending byte and transition to
HALTED.  On the code, byte 0xFF has no branch-table entry, yet `tick` throws
a `ReferenceError` on the undeclared `handler` variable before any lookup:
nothing is reported (the console output stays empty), the clock keeps
running, and the draft's `tick` — the one file with an unknown-opcode check —
dies first on a `TypeError` from calling the branch table as a function. -/
theorem c3_unknown_opcode_not_reported :
    (255 : ℕ) ∉ CPU.branchTableKeys ∧
    (initState unknownRam).ram 0 = .num 255 ∧
    (CPU.tick (initState unknownRam)).1.IR = .num 255 ∧
    (CPU.tick (initState unknownRam)).2 = .error .referenceError ∧
    (CPU.tick (initState unknownRam)).1.running = true ∧
    (CPU.tick (initState unknownRam)).1.output = [] ∧
    (CPU.tickDraft (initState unknownRam)).2 = .error .typeError ∧
    (CPU.tickDraft (initState unknownRam)).1.running = true := by
  refine ⟨by decide, by decide, by decide, by decide, by decide, by decide,
    by decide, by decide⟩

/-- C4: the claim says a tick executing a control-flow instruction leaves PC
at the handler-chosen target and any other tick advances PC by the opcode's
top two bits plus one.  On the code, a tick over `JMP R0` with R0 = 10 ends
with PC still 0 (the handler only *returns* the target, and `tick` throws a
`ReferenceError` before dispatch and before its advance line), and a tick
over the plain instruction `LDI R0,42` also ends with PC = 0 rather than 3. -/
theorem c4_tick_pc_never_redirected :
    jmpState.ram 0 = .num 80 ∧
    jmpState.reg 0 = .num 10 ∧
    (CPU.JMP jmpState (.num 0)).2 = .num 10 ∧
    (CPU.JMP jmpState (.num 0)).1 = jmpState ∧
    (CPU.tick jmpState).1.PC = 0 ∧
    (CPU.tick jmpState).2 = .error .referenceError ∧
    (initState ldiRam).ram 0 = .num 153 ∧
    (CPU.tick (initState ldiRam)).1.PC = 0 ∧
    (CPU.tick (initState ldiRam)).2 = .error .referenceError := by
  refine ⟨by decide, by decide, by decide, rfl, by decide, by decide,
    by decide, by decide, by decide⟩

/-- C5: the claim says `CALL` at address p pushes p+2 and sets PC to the
operand register's value, and a following `RET` pops that address back into
PC.  On the code, with PC = 0, R0 = 10 and SP = 0xF4, `CALL R0` does push 2
at address 0xF3, but merely *returns* 10: PC stays 0; and `RET` pops 2 and
returns it without assigning PC either, so PC is still 0 after CALL-then-RET
instead of 2. -/
theorem c5_call_ret_do_not_set_pc :
    callState.PC = 0 ∧
    callState.reg 0 = .num 10 ∧
    afterCALL.map (fun p => p.1.ram 243) = some (.num 2) ∧
    afterCALL.map (fun p => p.2) = some (.num 10) ∧
    afterCALL.map (fun p => p.1.PC) = some 0 ∧
    afterRET.map (fun p => p.2) = some (.num 2) ∧
    afterRET.map (fun p => p.1.PC) = some 0 := by
  refine ⟨by decide, by decide, by decide, by decide, by decide, by decide,
    by decide⟩

/-- C6: the claim says every `CMP` freshly recomputes the three flag bits so
that exactly one of EQUAL/GREATER/LESS holds afterwards and no earlier flag
state survives.  On the code, `CMP` reaches the alu with an op its switch
does not handle, so nothing happens: with R0 = 5, R1 = 5 and all three flag
bits stale from before, the state after `CMP R0,R1` is identical — GREATER
and LESS are still set alongside EQUAL — and on a fresh CPU the flags stay
`undefined`, never becoming EQUAL. -/
theorem c6_cmp_leaves_flags_unchanged :
    cmpStaleState.reg 0 = .num 5 ∧
    cmpStaleState.reg 1 = .num 5 ∧
    cmpStaleState.FL = .num 7 ∧
    CPU.CMP cmpStaleState (.num 0) (.num 1) = cmpStaleState ∧
    Int.land ((CPU.CMP cmpStaleState (.num 0) (.num 1)).FL.toInt32) FL_GT
      = 2 ∧
    Int.land ((CPU.CMP cmpStaleState (.num 0) (.num 1)).FL.toInt32) FL_LT
      = 4 ∧
    (CPU.CMP cmpEqState (.num 0) (.num 1)).FL = .undefined := by
  refine ⟨by decide, by decide, by decide, rfl, by decide, by decide,
    by decide⟩

/-- C7: for distinct general register indices r and r2, with the Stack
Pointer at an address that keeps both accesses in range, `PUSH r` followed by
`POP r2` stores r's prior value into r2 and restores the Stack Pointer to its
pre-push value — push decrements SP by 1 then writes at SP, pop reads at SP
then increments SP by 1. -/
theorem c7_push_then_pop_restores (s : CPUState) (r r2 n : ℤ)
    (hr : 0 ≤ r ∧ r < 8) (hr2 : 0 ≤ r2 ∧ r2 < 8) (hne : r ≠ r2)
    (hsp : s.SP = .num ((n : ℤ) : ℚ)) (hn1 : 1 ≤ n) (hn2 : n ≤ 255) :
    ∃ s1 s2, CPU.PUSH s (.num ((r : ℤ) : ℚ)) = .ok s1 ∧
      CPU.POP s1 (.num ((r2 : ℤ) : ℚ)) = .ok s2 ∧
      s2.reg r2 = s.reg r ∧ s2.SP = s.SP ∧ s2.PC = s.PC := by
  have hP : CPU.PUSH s (.num ((r : ℤ) : ℚ)) = .ok { s with
      SP := .num ((n - 1 : ℤ) : ℚ)
      ram := ramStore s.ram (n - 1) (s.reg r) } := by
    rw [CPU.PUSH, regRead_int]
    exact push_int s n (s.reg r) hsp (by omega) (by omega)
  have hpop : pop { s with
      SP := .num ((n - 1 : ℤ) : ℚ)
      ram := ramStore s.ram (n - 1) (s.reg r) } =
      .ok ({ s with
        SP := .num ((n - 1 + 1 : ℤ) : ℚ)
        ram := ramStore s.ram (n - 1) (s.reg r) },
        s.reg r) := by
    rw [pop_int _ (n - 1) rfl (by omega) (by omega)]
    simp only [ramStore_read s.ram (n - 1) (s.reg r) (by omega) (by omega)]
  refine ⟨_, regWrite { s with
      SP := .num ((n - 1 + 1 : ℤ) : ℚ)
      ram := ramStore s.ram (n - 1) (s.reg r) } (.num ((r2 : ℤ) : ℚ))
      (s.reg r),
    hP, ?_, ?_, ?_, ?_⟩
  · rw [CPU.POP, hpop]
  · rw [regWrite_int]
    simp
  · rw [regWrite_int]
    show JSVal.num ((n - 1 + 1 : ℤ) : ℚ) = s.SP
    rw [hsp]
    have hn : (n - 1 + 1 : ℤ) = n := by omega
    rw [hn]
  · rw [regWrite_int]

/-- C7 witness: the push/pop round trip evaluated on a freshly constructed
CPU with r = 0, r2 = 1 and the Stack Pointer at 244. -/
theorem c7_push_then_pop_restores_witness :
    ((0:ℤ) ≤ 0 ∧ (0:ℤ) < 8) ∧ ((0:ℤ) ≤ 1 ∧ (1:ℤ) < 8) ∧ (0:ℤ) ≠ 1 ∧
    (initState zeroRam).SP = .num ((244 : ℤ) : ℚ) ∧
    (1:ℤ) ≤ 244 ∧ (244:ℤ) ≤ 255 ∧
    (∃ s1 s2, CPU.PUSH (initState zeroRam) (.num ((0 : ℤ) : ℚ)) = .ok s1 ∧
      CPU.POP s1 (.num ((1 : ℤ) : ℚ)) = .ok s2 ∧
      s2.reg 1 = (initState zeroRam).reg 0 ∧
      s2.SP = (initState zeroRam).SP ∧
      s2.PC = (initState zeroRam).PC) :=
  ⟨by decide, by decide, by decide, by decide, by decide, by decide,
   c7_push_then_pop_restores (initState zeroRam) 0 1 244 (by decide)
     (by decide) (by decide) (by decide) (by decide) (by decide)⟩

/-- C8: for a register index r in [0,7] and a value v in [0,255], running
`LDI r, v` and then reading register r yields v. -/
theorem c8_ldi_then_read (s : CPUState) (r v : ℤ)
    (hr : 0 ≤ r ∧ r < 8) (hv : 0 ≤ v ∧ v ≤ 255) :
    regRead (CPU.LDI s (.num ((r : ℤ) : ℚ)) (.num ((v : ℤ) : ℚ)))
      (.num ((r : ℤ) : ℚ)) = .num ((v : ℤ) : ℚ) := by
  rw [CPU.LDI, regWrite_int, regRead_int]
  simp

/-- C8 witness: `LDI 3, 42` on a freshly constructed CPU, read back. -/
theorem c8_ldi_then_read_witness :
    ((0:ℤ) ≤ 3 ∧ (3:ℤ) < 8) ∧ ((0:ℤ) ≤ 42 ∧ (42:ℤ) ≤ 255) ∧
    regRead (CPU.LDI (initState zeroRam) (.num ((3 : ℤ) : ℚ))
        (.num ((42 : ℤ) : ℚ)))
      (.num ((3 : ℤ) : ℚ)) = .num ((42 : ℤ) : ℚ) :=
  ⟨by decide, by decide,
   c8_ldi_then_read (initState zeroRam) 3 42 (by decide) (by decide)⟩

/-- C9: the `HLT` handler only stops the clock: every general register, the
flags register, all 256 RAM cells, the PC and the Stack Pointer hold exactly
the values they held before. -/
theorem c9_hlt_frame (s : CPUState) :
    (CPU.HLT s).reg = s.reg ∧ (CPU.HLT s).ram = s.ram ∧
    (CPU.HLT s).FL = s.FL ∧ (CPU.HLT s).PC = s.PC ∧
    (CPU.HLT s).SP = s.SP ∧ (CPU.HLT s).output = s.output ∧
    (CPU.HLT s).running = false :=
  ⟨rfl, rfl, rfl, rfl, rfl, rfl, rfl⟩

/-- C10: a single tick is deterministic: two CPUs agreeing on RAM and on the
register file (registers, PC, IR, flags) produce, after one tick, equal RAM,
registers, PC, IR and flags, the same tick outcome, and the same newly
emitted console output — the model takes no input besides that state. -/
theorem c10_tick_deterministic (s1 s2 : CPUState)
    (hram : s1.ram = s2.ram) (hreg : s1.reg = s2.reg) (hpc : s1.PC = s2.PC)
    (hir : s1.IR = s2.IR) (hfl : s1.FL = s2.FL) :
    (CPU.tick s1).1.ram = (CPU.tick s2).1.ram ∧
    (CPU.tick s1).1.reg = (CPU.tick s2).1.reg ∧
    (CPU.tick s1).1.PC = (CPU.tick s2).1.PC ∧
    (CPU.tick s1).1.IR = (CPU.tick s2).1.IR ∧
    (CPU.tick s1).1.FL = (CPU.tick s2).1.FL ∧
    (CPU.tick s1).2 = (CPU.tick s2).2 ∧
    (CPU.tick s1).1.output.drop s1.output.length =
      (CPU.tick s2).1.output.drop s2.output.length := by
  unfold CPU.tick
  rw [hram, hpc]
  cases h0 : ramRead s2.ram (.num ((s2.PC : ℤ) : ℚ)) with
  | error e => simp_all [List.drop_length]
  | ok ir =>
    cases h1 : ramRead s2.ram (.num ((s2.PC + 1 : ℤ) : ℚ)) with
    | error e => simp_all [List.drop_length]
    | ok a =>
      cases h2 : ramRead s2.ram (.num ((s2.PC + 2 : ℤ) : ℚ)) with
      | error e => simp_all [List.drop_length]
      | ok b => simp_all [List.drop_length]

/-- C10 witness: two CPUs equal on RAM and the register file but with
different console histories tick to the same machine state and emit the same
(empty) new output. -/
theorem c10_tick_deterministic_witness :
    (initState zeroRam).ram = outputVariantState.ram ∧
    (initState zeroRam).reg = outputVariantState.reg ∧
    (initState zeroRam).PC = outputVariantState.PC ∧
    (initState zeroRam).IR = outputVariantState.IR ∧
    (initState zeroRam).FL = outputVariantState.FL ∧
    ((CPU.tick (initState zeroRam)).1.ram =
        (CPU.tick outputVariantState).1.ram ∧
      (CPU.tick (initState zeroRam)).1.reg =
        (CPU.tick outputVariantState).1.reg ∧
      (CPU.tick (initState zeroRam)).1.PC =
        (CPU.tick outputVariantState).1.PC ∧
      (CPU.tick (initState zeroRam)).1.IR =
        (CPU.tick outputVariantState).1.IR ∧
      (CPU.tick (initState zeroRam)).1.FL =
        (CPU.tick outputVariantState).1.FL ∧
      (CPU.tick (initState zeroRam)).2 = (CPU.tick outputVariantState).2 ∧
      (CPU.tick (initState zeroRam)).1.output.drop
          (initState zeroRam).output.length =
        (CPU.tick outputVariantState).1.output.drop
          outputVariantState.output.length) :=
  ⟨rfl, rfl, rfl, rfl, rfl,
   c10_tick_deterministic (initState zeroRam) outputVariantState
     rfl rfl rfl rfl rfl⟩

end LS8
